import Mathlib

/-!
Verification of the Vite audio-recorder repository's specification against its
two recorder components:

* Variant A — `src/unnamed/part_000` (`AudioRecorderApp`): states
  `idle / recording / paused / finished`, elapsed time driven by the
  wavesurfer record-plugin `record-progress` events (milliseconds), a
  hard-coded 30-second limit in "limited" mode, and a `stopRecording` that
  defers the plugin stop and the state change by a 100 ms `setTimeout`.

* Variant B — `src/unnamed/part_001` (`Recorder`): modes
  `idle / recording / paused / stopped / playing`, an optional `maxDuration`
  prop, a `setInterval` second-counter started only when `maxDuration` is
  null, and a guarded `stopRecording`.

Both components are single-threaded and event-driven, so each is embedded as
a pure step function over an explicit state record, driven by a list of
events (user commands, plugin callbacks, timer/timeout firings).  Calls
forwarded to the capture plugin are counted in the state so that claims about
"never forwards to the CaptureDevice" and "stop is invoked exactly once" are
expressible.
-/

/-- The four session states of the specification's transition table
(variant A's `recorderState` uses exactly these). -/
inductive RState
  | idle
  | recording
  | paused
  | finished
deriving DecidableEq, Repr

/-- The five user commands of the documented transition table. -/
inductive Cmd
  | start
  | pause
  | resume
  | stop
  | reset
deriving DecidableEq, Repr

/-- The documented transition table of the spec (section 4.1): listed
transitions move, every other command leaves the state unchanged. -/
def specStep : RState → Cmd → RState
  | .idle, .start => .recording
  | .recording, .pause => .paused
  | .paused, .resume => .recording
  | .recording, .stop => .finished
  | .paused, .stop => .finished
  | .finished, .reset => .idle
  | s, _ => s

/-- Whether the documented table lists command `c` from state `s`. -/
def allowed : RState → Cmd → Bool
  | .idle, .start => true
  | .recording, .pause => true
  | .paused, .resume => true
  | .recording, .stop => true
  | .paused, .stop => true
  | .finished, .reset => true
  | _, _ => false

/-- A command sequence is legal from `s` when each command is listed by the
documented table at the state where it is applied. -/
def legalSeq : RState → List Cmd → Bool
  | _, [] => true
  | s, c :: cs => allowed s c && legalSeq (specStep s c) cs

/-- Variant A's state transition at completed-command granularity, on the
`recorderState` field only.  In `part_000` none of `startRecording`,
`pauseRecording`, `resumeRecording`, `stopRecording` (after its timeout) or
`deleteRecording` inspects the current state: each unconditionally sets the
state it names (a successful `start` sets `recording`, `stop` eventually sets
`finished`, `deleteRecording` sets `idle`). -/
def stepStateA : RState → Cmd → RState
  | _, .start => .recording
  | _, .pause => .paused
  | _, .resume => .recording
  | _, .stop => .finished
  | _, .reset => .idle

/-- Variant B's `mode` field values. -/
inductive BMode
  | idle
  | recording
  | paused
  | stopped
  | playing
deriving DecidableEq, Repr

/-- Abstraction of variant B's modes to the spec's four states: `stopped` and
`playing` are the `Finished` session state (playback is a sub-state). -/
def absB : BMode → RState
  | .idle => .idle
  | .recording => .recording
  | .paused => .paused
  | .stopped => .finished
  | .playing => .finished

/-- Variant B's mode transition at completed-command granularity.  In
`part_001` only `stopRecording` is guarded (`mode !== "recording" &&
mode !== "paused"` returns early); a guarded stop reaches `stopped` through
the asynchronous `record-end` handler.  `pauseRecording`, `resumeRecording`
and `restart` set their mode unconditionally. -/
def stepModeB (m : BMode) : Cmd → BMode
  | .start => .recording
  | .pause => .paused
  | .resume => .recording
  | .stop => if m = .recording ∨ m = .paused then .stopped else m
  | .reset => .idle

/-- Variant A's `formatTime` (`part_000` lines 9-13): on a non-negative
integer input, `Math.floor(seconds / 60)`, a colon, a conditional `'0'`
pad character, then `Math.floor(seconds % 60)`. -/
def formatTimeA (seconds : Nat) : String :=
  let mins := seconds / 60
  let secs := seconds % 60
  toString mins ++ ":" ++ ((if secs < 10 then "0" else "") ++ toString secs)

/-- Variant B's `formatTime` (`part_001` lines 42-46): `Math.floor(sec / 60)`,
a colon, then either `"0" + secs` or `secs` where `secs = sec % 60`. -/
def formatTimeB (sec : Nat) : String :=
  let mins := sec / 60
  let secs := sec % 60
  toString mins ++ ":" ++ (if secs < 10 then "0" ++ toString secs else toString secs)

/-- The rendering described by the claim: floor(s/60), a colon, and s mod 60
rendered as exactly two digits (zero-padded when below 10). -/
def formatTimeSpec (s : Nat) : String :=
  toString (s / 60) ++ ":" ++
    (if s % 60 < 10 then "0" ++ toString (s % 60) else toString (s % 60))

/-! ## Variant A, event-level model (`part_000`, `AudioRecorderApp`)

`duration` in the source is `time / 1000` with `time` the milliseconds
reported by `record-progress`; it is stored here in milliseconds
(`durationMs`), so the source's real-valued test `currentSecs >= 30` is
exactly `30000 ≤ durationMs`.  `stopRecording` schedules a 100 ms
`setTimeout` whose callback calls the plugin's `stopRecording` and sets the
state to `finished`; scheduled, not-yet-fired callbacks are counted in
`pendingStops` and fired by an explicit `fireStopTimeout` event.  The
`dev*` fields count the calls forwarded to the record plugin. -/

/-- `maxDuration` of `part_000` (line 36): 30 seconds in limited mode. -/
def maxDurationA : Nat := 30

structure StateA where
  rState : RState
  durationMs : Nat
  currentTimeMs : Nat
  recordedUrl : Bool
  isPlaying : Bool
  modeLimited : Bool
  pendingStops : Nat
  devStarts : Nat
  devPauses : Nat
  devResumes : Nat
  devStops : Nat
  consoleErrors : Nat
deriving DecidableEq, Repr

/-- Events variant A reacts to: user button handlers, record-plugin
callbacks, wavesurfer playback events, and the firing of a stop timeout. -/
inductive EventA
  | userStartOk
  | userStartFail
  | userPause
  | userResume
  | userStop
  | userReset
  | userTogglePlay
  | progress (ms : Nat)
  | fireStopTimeout
  | recordEnd
  | timeupdate (ms : Nat)
  | playEvt
  | pauseEvt
  | finishEvt

/-- `part_000`'s `stopRecording` (lines 143-150): no state guard; it only
schedules the 100 ms timeout that will stop the plugin and set `finished`. -/
def stopRecordingA (s : StateA) : StateA :=
  { s with pendingStops := s.pendingStops + 1 }

/-- One event of variant A, transcribed handler by handler from
`part_000`.  `userStartOk` is `startRecording` with the awaited plugin call
succeeding (state updates follow the await); `userStartFail` is the same
call rejecting: the `catch` only logs `console.error`, no state field is
touched.  `progress ms` is the `record-progress` handler: it stores the new
duration and, in limited mode at `currentSecs >= 30`, calls
`stopRecording`.  `fireStopTimeout` is one scheduled timeout callback
running: it calls the plugin's `stopRecording` and sets `finished`. -/
def stepA (s : StateA) : EventA → StateA
  | .userStartOk =>
      { s with devStarts := s.devStarts + 1, rState := .recording,
               recordedUrl := false, durationMs := 0 }
  | .userStartFail =>
      { s with devStarts := s.devStarts + 1, consoleErrors := s.consoleErrors + 1 }
  | .userPause =>
      { s with devPauses := s.devPauses + 1, rState := .paused }
  | .userResume =>
      { s with devResumes := s.devResumes + 1, rState := .recording }
  | .userStop => stopRecordingA s
  | .userReset =>
      { s with rState := .idle, durationMs := 0, currentTimeMs := 0,
               recordedUrl := false, isPlaying := false }
  | .userTogglePlay => { s with isPlaying := !s.isPlaying }
  | .progress ms =>
      let s2 := { s with durationMs := ms }
      if s.modeLimited ∧ 1000 * maxDurationA ≤ ms then stopRecordingA s2 else s2
  | .fireStopTimeout =>
      if 0 < s.pendingStops then
        { s with pendingStops := s.pendingStops - 1,
                 devStops := s.devStops + 1, rState := .finished }
      else s
  | .recordEnd => { s with recordedUrl := true }
  | .timeupdate ms => { s with currentTimeMs := ms }
  | .playEvt => { s with isPlaying := true }
  | .pauseEvt => { s with isPlaying := false }
  | .finishEvt => { s with isPlaying := false }

/-- Variant A's initial component state (mode defaults to limited). -/
def initA : StateA :=
  { rState := .idle, durationMs := 0, currentTimeMs := 0, recordedUrl := false,
    isPlaying := false, modeLimited := true, pendingStops := 0,
    devStarts := 0, devPauses := 0, devResumes := 0, devStops := 0,
    consoleErrors := 0 }

def runA (s : StateA) (es : List EventA) : StateA :=
  es.foldl stepA s

/-! ## Variant B, event-level model (`part_001`, `Recorder`)

`time` is in whole seconds, as in the source (`setTime(t + 1)` from the
interval, `setTime(Math.floor(currentTime / 1000))` from `record-progress`).
`timerActive` models whether the `setInterval` registered in `timerRef` is
running; `mounted` records whether the component has been unmounted (the
effect cleanup calls `ws.destroy()` only — it never clears the interval). -/

structure StateB where
  mode : BMode
  time : Nat
  playbackTime : Nat
  blob : Bool
  timerActive : Bool
  mounted : Bool
  maxDuration : Option Nat
  devStarts : Nat
  devPauses : Nat
  devResumes : Nat
  devStops : Nat
  errorReports : Nat
deriving DecidableEq, Repr

/-- Events variant B reacts to. -/
inductive EventB
  | userStartOk
  | userStartFail
  | userPause
  | userResume
  | userStop
  | userRestart
  | userPlay
  | userPausePlayback
  | recordEnd
  | recordProgress (ms : Nat)
  | timerTick
  | audioprocess (sec : Nat)
  | finishEvt
  | unmount

/-- One event of variant B, transcribed handler by handler from `part_001`.
`userStartOk`/`userStartFail`: `startRecording` sets mode `recording` and
`time := 0` BEFORE the (un-awaited, un-caught) plugin call, then starts the
interval only when `maxDuration` is null — so a rejected device promise
leaves exactly the same component state as a successful one, and reports no
error.  `timerTick` is the `setInterval` callback: it increments `time` and,
when `maxDuration` is set and reached, calls the plugin's `stopRecording`
directly.  `userStop` is the only guarded handler.  `unmount` is the effect
cleanup: `ws.destroy()` only, the interval is not cleared. -/
def stepB (s : StateB) : EventB → StateB
  | .userStartOk =>
      { s with mode := .recording, time := 0, devStarts := s.devStarts + 1,
               timerActive := if s.maxDuration = none then true else s.timerActive }
  | .userStartFail =>
      { s with mode := .recording, time := 0, devStarts := s.devStarts + 1,
               timerActive := if s.maxDuration = none then true else s.timerActive }
  | .userPause =>
      { s with devPauses := s.devPauses + 1, timerActive := false, mode := .paused }
  | .userResume =>
      { s with devResumes := s.devResumes + 1, mode := .recording,
               timerActive := if s.maxDuration = none then true else s.timerActive }
  | .userStop =>
      if s.mode = .recording ∨ s.mode = .paused
      then { s with devStops := s.devStops + 1 }
      else s
  | .userRestart =>
      { s with timerActive := false, time := 0, playbackTime := 0,
               blob := false, mode := .idle }
  | .userPlay => { s with mode := .playing }
  | .userPausePlayback => { s with mode := .stopped }
  | .recordEnd =>
      { s with blob := true, mode := .stopped, timerActive := false }
  | .recordProgress ms => { s with time := ms / 1000 }
  | .timerTick =>
      if s.timerActive then
        let newTime := s.time + 1
        let s2 := { s with time := newTime }
        match s.maxDuration with
        | some d => if d ≤ newTime then { s2 with devStops := s2.devStops + 1 } else s2
        | none => s2
      else s
  | .audioprocess sec =>
      if s.mode = .playing then { s with playbackTime := sec } else s
  | .finishEvt => { s with mode := .stopped, playbackTime := 0 }
  | .unmount => { s with mounted := false }

/-- Variant B's initial component state for a given `maxDuration` prop. -/
def initB (md : Option Nat) : StateB :=
  { mode := .idle, time := 0, playbackTime := 0, blob := false,
    timerActive := false, mounted := true, maxDuration := md,
    devStarts := 0, devPauses := 0, devResumes := 0, devStops := 0,
    errorReports := 0 }

def runB (s : StateB) (es : List EventB) : StateB :=
  es.foldl stepB s

theorem empty_string_append (x : String) : "" ++ x = x := by
  cases x
  rfl

/-- Claim C10: for every non-negative integer s, `formatTime` returns
floor(s/60), a colon, and s mod 60 zero-padded to two digits when below 10,
and the two variants' `formatTime` agree on all such inputs. -/
theorem C10_formatTime_correct (s : Nat) :
    formatTimeA s = formatTimeSpec s ∧ formatTimeB s = formatTimeSpec s := by
  unfold formatTimeA formatTimeB formatTimeSpec
  by_cases h : s % 60 < 10 <;> simp [h, empty_string_append, String.append_assoc]

/-- Helper for claim C1: over any command sequence that is legal for the
documented table, variant A's unguarded state transitions and variant B's
mode transitions (abstracted to session states) both fold to exactly the
table's fold, from any table-state and any B-mode abstracting to it. -/
theorem legal_fold_general : ∀ (cmds : List Cmd) (s : RState) (b : BMode),
    absB b = s → legalSeq s cmds = true →
    List.foldl stepStateA s cmds = List.foldl specStep s cmds ∧
    absB (List.foldl stepModeB b cmds) = List.foldl specStep s cmds
  | [], _, _, hb, _ => ⟨rfl, hb⟩
  | c :: cs, s, b, hb, hl => by
      rw [legalSeq, Bool.and_eq_true] at hl
      obtain ⟨ha, hrest⟩ := hl
      cases c <;> cases s <;> cases b <;>
        simp_all [allowed, absB, specStep, stepStateA, stepModeB] <;>
        exact legal_fold_general cs _ _ rfl hrest

/-- Claim C1, as stated, is false: the command `pause` applied from `Idle` is
not listed by the documented table, so the table's fold leaves the state
`Idle`, but variant A's `pauseRecording` has no state guard and sets the
state to `paused` (variant B behaves the same way). -/
theorem C1_counterexample :
    List.foldl stepStateA RState.idle [Cmd.pause] ≠
      List.foldl specStep RState.idle [Cmd.pause] ∧
    absB (List.foldl stepModeB BMode.idle [Cmd.pause]) ≠
      List.foldl specStep RState.idle [Cmd.pause] := by
  decide

/-- Claim C1 (amended): for every command sequence that is legal for the
documented table — each command listed at the state where it is applied —
the session state after applying the commands in either variant equals the
fold of the documented transition table over `Idle`.  Unlisted commands are
not no-ops: `pause`, `resume` and `reset` (and `start`) are applied
unguarded from every state; only variant B's `stop` is guarded as a no-op
outside `Recording`/`Paused`. -/
theorem C1_legal_fold_agrees (cmds : List Cmd)
    (h : legalSeq RState.idle cmds = true) :
    List.foldl stepStateA RState.idle cmds = List.foldl specStep RState.idle cmds ∧
    absB (List.foldl stepModeB BMode.idle cmds) =
      List.foldl specStep RState.idle cmds :=
  legal_fold_general cmds RState.idle BMode.idle rfl h

/-- Witness for C1: the full documented cycle start-pause-resume-stop-reset
is legal and both variants fold to the table's result on it. -/
theorem C1_legal_fold_agrees_witness :
    legalSeq RState.idle [Cmd.start, Cmd.pause, Cmd.resume, Cmd.stop, Cmd.reset] = true ∧
    (List.foldl stepStateA RState.idle
        [Cmd.start, Cmd.pause, Cmd.resume, Cmd.stop, Cmd.reset] =
      List.foldl specStep RState.idle
        [Cmd.start, Cmd.pause, Cmd.resume, Cmd.stop, Cmd.reset] ∧
    absB (List.foldl stepModeB BMode.idle
        [Cmd.start, Cmd.pause, Cmd.resume, Cmd.stop, Cmd.reset]) =
      List.foldl specStep RState.idle
        [Cmd.start, Cmd.pause, Cmd.resume, Cmd.stop, Cmd.reset]) :=
  ⟨by decide,
   C1_legal_fold_agrees [Cmd.start, Cmd.pause, Cmd.resume, Cmd.stop, Cmd.reset]
     (by decide)⟩

/-- Claim C2: the duration limit is never enforced in variant B.  With
`maxDuration = 30`, `startRecording` does not start the interval (it is
started only when `maxDuration` is null), the `maxDuration` check lives only
inside that never-started interval callback, and the `record-progress`
handler just stores the time — so after 31 seconds of progress events the
mode is still `recording`, `time = 31 > 30`, the timer was never active, and
the plugin's `stopRecording` was never called.  The spec requires `Finished`
within one tick of reaching the limit. -/
theorem C2_limit_not_enforced_part001 :
    (runB (initB (some 30))
        (EventB.userStartOk ::
          (List.range 31).map (fun i => EventB.recordProgress ((i + 1) * 1000)))).mode
        = BMode.recording ∧
    (runB (initB (some 30))
        (EventB.userStartOk ::
          (List.range 31).map (fun i => EventB.recordProgress ((i + 1) * 1000)))).time = 31 ∧
    (runB (initB (some 30))
        (EventB.userStartOk ::
          (List.range 31).map (fun i => EventB.recordProgress ((i + 1) * 1000)))).devStops = 0 ∧
    (runB (initB (some 30))
        (EventB.userStartOk ::
          (List.range 31).map (fun i => EventB.recordProgress ((i + 1) * 1000)))).timerActive
        = false := by
  decide

/-- Claim C3: variant A issues a duplicate stop.  In limited mode, two
`record-progress` events at 30.0 s and 30.1 s — both arriving before the
100 ms stop timeout of `stopRecording` has fired (the state is still
`recording`, no guard rejects the second) — each schedule a stop timeout,
and when the two timeouts fire the plugin's `stopRecording` is invoked
twice.  The spec requires the finalize path to run exactly once. -/
theorem C3_duplicate_stop_part000 :
    (runA initA [EventA.userStartOk, EventA.progress 30000, EventA.progress 30100,
                 EventA.fireStopTimeout, EventA.fireStopTimeout]).devStops = 2 ∧
    (runA initA [EventA.userStartOk, EventA.progress 30000,
                 EventA.progress 30100]).pendingStops = 2 := by
  decide

/-- Claim C4, as stated, is false: `pause` invoked in the initial `Idle`
state of variant A is not a no-op — it changes the state to `paused` and
forwards one `pauseRecording` call to the capture plugin (variant B's
`pauseRecording` is equally unguarded). -/
theorem C4_counterexample :
    (stepA initA EventA.userPause).rState ≠ initA.rState ∧
    (stepA initA EventA.userPause).devPauses = 1 ∧
    (stepB (initB none) EventB.userPause).mode ≠ (initB none).mode ∧
    (stepB (initB none) EventB.userPause).devPauses = 1 := by
  decide

/-- Claim C4 (amended): only variant B's `stop` is guarded: invoked from any
mode other than `recording`/`paused` it is a silent no-op that leaves every
field of the component state unchanged and forwards no call to the capture
plugin.  The other unlisted operations are unguarded in both variants:
`pause` and `resume` change state and are forwarded to the capture plugin;
`reset` changes state (back to idle, zeroing the elapsed time) but forwards
nothing to the capture plugin — it only touches the waveform view. -/
theorem C4_stopB_guarded (s : StateB)
    (h : s.mode ≠ BMode.recording ∧ s.mode ≠ BMode.paused) :
    stepB s EventB.userStop = s := by
  simp [stepB, h.1, h.2]

/-- Witness for C4: the initial (Idle) variant-B state is not recording or
paused, and `stop` there leaves it unchanged. -/
theorem C4_stopB_guarded_witness :
    ((initB none).mode ≠ BMode.recording ∧ (initB none).mode ≠ BMode.paused) ∧
    stepB (initB none) EventB.userStop = initB none :=
  ⟨by decide, C4_stopB_guarded (initB none) (by decide)⟩

/-- Claim C5: a failed `start` is not atomic in variant B.  `startRecording`
sets mode `recording` and `time := 0` before the plugin call, the rejected
promise is neither awaited nor caught, and the timer is started anyway (in
unbounded mode) — so after a permission-denied start the state is
`recording`, not `Idle`, the timer runs, and no error is reported.  The spec
requires the state to remain `Idle` with an error reported once. -/
theorem C5_failed_start_part001 :
    (runB (initB none) [EventB.userStartFail]).mode = BMode.recording ∧
    (runB (initB none) [EventB.userStartFail]).timerActive = true ∧
    (runB (initB none) [EventB.userStartFail]).errorReports = 0 := by
  decide

/-- Claim C6: the timer leaks on unmount in variant B.  After `start` in
unbounded mode the interval is active; the effect cleanup run on unmount
calls only `ws.destroy()` and never `clearInterval`, so the interval is
still active after the component is unmounted.  The spec requires every
timer to be cancelled on unmount/disposal. -/
theorem C6_timer_leak_on_unmount_part001 :
    (runB (initB none) [EventB.userStartOk, EventB.unmount]).mounted = false ∧
    (runB (initB none) [EventB.userStartOk, EventB.unmount]).timerActive = true := by
  decide

/-- Claim C7: confirmed.  In variant A, `togglePlayback` and the playback
`timeupdate` events leave `recorderState` at `finished` and never change the
recorded duration; in variant B, `play` and `pause` keep the mode inside
the `Finished` abstraction (`stopped`/`playing`) and the `audioprocess`
playback-position events never change `time`. -/
theorem C7_playback_preserves_session (a : StateA) (b : StateB) (ta tb : Nat)
    (ha : a.rState = RState.finished)
    (hb : b.mode = BMode.stopped ∨ b.mode = BMode.playing) :
    ((stepA a EventA.userTogglePlay).rState = RState.finished ∧
     (stepA a EventA.userTogglePlay).durationMs = a.durationMs ∧
     (stepA a (EventA.timeupdate ta)).rState = RState.finished ∧
     (stepA a (EventA.timeupdate ta)).durationMs = a.durationMs) ∧
    (absB (stepB b EventB.userPlay).mode = RState.finished ∧
     (stepB b EventB.userPlay).time = b.time ∧
     absB (stepB b EventB.userPausePlayback).mode = RState.finished ∧
     (stepB b EventB.userPausePlayback).time = b.time ∧
     (stepB b (EventB.audioprocess tb)).time = b.time) := by
  refine ⟨⟨?_, ?_, ?_, ?_⟩, ?_, ?_, ?_, ?_, ?_⟩ <;>
    simp [stepA, stepB, absB, ha] <;>
    split <;> simp

/-- Witness for C7: a concrete finished variant-A state and stopped
variant-B state. -/
theorem C7_playback_preserves_session_witness :
    ((runA initA [EventA.userStartOk, EventA.userStop,
        EventA.fireStopTimeout]).rState = RState.finished ∧
     ((runB (initB none) [EventB.userStartOk, EventB.userStop,
        EventB.recordEnd]).mode = BMode.stopped ∨
      (runB (initB none) [EventB.userStartOk, EventB.userStop,
        EventB.recordEnd]).mode = BMode.playing)) ∧
    (stepA (runA initA [EventA.userStartOk, EventA.userStop,
        EventA.fireStopTimeout]) EventA.userTogglePlay).rState = RState.finished ∧
    absB (stepB (runB (initB none) [EventB.userStartOk, EventB.userStop,
        EventB.recordEnd]) EventB.userPlay).mode = RState.finished :=
  ⟨⟨by decide, by decide⟩,
   (C7_playback_preserves_session
      (runA initA [EventA.userStartOk, EventA.userStop, EventA.fireStopTimeout])
      (runB (initB none) [EventB.userStartOk, EventB.userStop, EventB.recordEnd])
      0 0 (by decide) (by decide)).1.1,
   (C7_playback_preserves_session
      (runA initA [EventA.userStartOk, EventA.userStop, EventA.fireStopTimeout])
      (runB (initB none) [EventB.userStartOk, EventB.userStop, EventB.recordEnd])
      0 0 (by decide) (by decide)).2.1⟩

/-- Claim C8, as stated, is false: `reset` called while `Recording` is not a
no-op.  From the reachable variant-A state after `start` and 5 s of
progress, `deleteRecording` moves the state to `idle` and zeroes the
duration (variant B's `restart` from `recording` behaves the same way). -/
theorem C8_counterexample :
    (runA initA [EventA.userStartOk, EventA.progress 5000]).rState
        = RState.recording ∧
    stepA (runA initA [EventA.userStartOk, EventA.progress 5000]) EventA.userReset
        ≠ runA initA [EventA.userStartOk, EventA.progress 5000] ∧
    (stepA (runA initA [EventA.userStartOk, EventA.progress 5000])
        EventA.userReset).rState = RState.idle ∧
    (runB (initB none) [EventB.userStartOk, EventB.timerTick]).mode
        = BMode.recording ∧
    (stepB (runB (initB none) [EventB.userStartOk, EventB.timerTick])
        EventB.userRestart).mode = BMode.idle := by
  decide

/-- Claim C8 (amended): reset returns the session to `Idle` with the
artifact absent and elapsed time 0 from EVERY state, not only from
`Finished`: in neither variant is reset guarded as a no-op. -/
theorem C8_reset_from_any_state (a : StateA) (b : StateB) :
    (stepA a EventA.userReset).rState = RState.idle ∧
    (stepA a EventA.userReset).durationMs = 0 ∧
    (stepA a EventA.userReset).recordedUrl = false ∧
    (stepB b EventB.userRestart).mode = BMode.idle ∧
    (stepB b EventB.userRestart).time = 0 ∧
    (stepB b EventB.userRestart).blob = false := by
  simp [stepA, stepB]

/-- Claim C9: confirmed.  With no tick or progress events between the calls,
`pause; resume; pause; resume` leaves the elapsed time of either variant
exactly equal to that of the run in which pause was never called, and the
session is recording again afterwards. -/
theorem C9_pause_resume_neutral (a : StateA) (b : StateB)
    (ha : a.rState = RState.recording) (hb : b.mode = BMode.recording) :
    (runA a [EventA.userPause, EventA.userResume,
             EventA.userPause, EventA.userResume]).durationMs
        = (runA a []).durationMs ∧
    (runA a [EventA.userPause, EventA.userResume,
             EventA.userPause, EventA.userResume]).rState = RState.recording ∧
    (runB b [EventB.userPause, EventB.userResume,
             EventB.userPause, EventB.userResume]).time
        = (runB b []).time ∧
    (runB b [EventB.userPause, EventB.userResume,
             EventB.userPause, EventB.userResume]).mode = BMode.recording := by
  simp [runA, runB, stepA, stepB, List.foldl]

/-- Witness for C9: concrete recording states of both variants, reached by a
`start`. -/
theorem C9_pause_resume_neutral_witness :
    ((runA initA [EventA.userStartOk]).rState = RState.recording ∧
     (runB (initB none) [EventB.userStartOk]).mode = BMode.recording) ∧
    (runA (runA initA [EventA.userStartOk])
        [EventA.userPause, EventA.userResume,
         EventA.userPause, EventA.userResume]).durationMs
      = (runA (runA initA [EventA.userStartOk]) []).durationMs ∧
    (runB (runB (initB none) [EventB.userStartOk])
        [EventB.userPause, EventB.userResume,
         EventB.userPause, EventB.userResume]).time
      = (runB (runB (initB none) [EventB.userStartOk]) []).time :=
  ⟨⟨by decide, by decide⟩,
   (C9_pause_resume_neutral (runA initA [EventA.userStartOk])
      (runB (initB none) [EventB.userStartOk]) (by decide) (by decide)).1,
   (C9_pause_resume_neutral (runA initA [EventA.userStartOk])
      (runB (initB none) [EventB.userStartOk]) (by decide) (by decide)).2.2.1⟩
